import Mathlib

/-!
Shallow embedding of the keboola asana-goals-jira-sync component.

The embedding translates the pure decision, aggregation and rendering logic
of src/src/sync_manager.py, src/src/jira_api.py, src/src/asana_api.py and
src/main.py into Lean definitions.  External HTTP calls are represented by
an explicit environment (`SyncEnv`): every adapter query result is supplied
as data, and every adapter write is recorded as a `SyncAction` instead of
being performed.  Python datetime values are represented by `ParsedTime`
(a wall-clock instant plus an optional UTC offset in seconds); naive
timestamps obtained after normalization are plain `Int` values, which keeps
the strict `>` comparisons of the source exact.
-/

namespace AsanaJiraSync

/-! ### String primitives

Python string operations used by the sources, implemented over character
lists so that every concrete computation reduces definitionally. -/

/-- Python str.lower restricted to the character level: each character is
lowercased independently. -/
def str_to_lower (s : String) : String := String.mk (s.data.map Char.toLower)

/-- Python whitespace test, the character class stripped by str.strip. -/
def is_py_space (c : Char) : Bool :=
  c == ' ' || c == '\t' || c == '\n' || c == '\r' ||
  c == Char.ofNat 11 || c == Char.ofNat 12

/-- Python str.strip: whitespace is removed from both ends. -/
def py_strip (s : String) : String :=
  String.mk (((s.data.dropWhile is_py_space).reverse.dropWhile is_py_space).reverse)

/-- Split a character list at newline characters, the character level
behaviour of Python str.split with a newline separator. -/
def split_on_nl : List Char → List (List Char)
  | [] => [[]]
  | ch :: rest =>
    let r := split_on_nl rest
    if ch == '\n' then [] :: r
    else
      match r with
      | [] => [[ch]]
      | h :: t => (ch :: h) :: t

/-- Character list prefix test used by the substring search. -/
def chars_at_front : List Char → List Char → Bool
  | [], _ => true
  | _ :: _, [] => false
  | a :: as, b :: bs => a == b && chars_at_front as bs

/-- Character list substring occurrence test. -/
def chars_occur_in : List Char → List Char → Bool
  | needle, [] => chars_at_front needle []
  | needle, c :: rest => chars_at_front needle (c :: rest) || chars_occur_in needle rest

/-- Python substring membership test on strings. -/
def str_contains_sub (hay needle : String) : Bool := chars_occur_in needle.data hay.data

/-- Left to right removal of every occurrence of a non empty pattern, the
behaviour of Python str.replace with an empty replacement.  The fuel
argument is a termination device only: it is instantiated with the input
length, which every step consumes, so the zero fuel branch is never reached
for a non empty pattern, and for an empty pattern removal is the
identity. -/
def remove_pat_fuel (pat : List Char) : Nat → List Char → List Char
  | 0, l => l
  | _, [] => []
  | fuel + 1, c :: rest =>
    if pat.isEmpty then c :: rest
    else if chars_at_front pat (c :: rest) then
      remove_pat_fuel pat fuel (List.drop pat.length (c :: rest))
    else c :: remove_pat_fuel pat fuel rest

/-- Python str.replace with the empty string as replacement. -/
def str_remove_all (s pat : String) : String :=
  String.mk (remove_pat_fuel pat.data s.data.length s.data)

/-- Result of dateutil parser.parse on a timestamp string: a wall-clock value
(abstracted to an integer number of seconds) together with an optional UTC
offset in seconds (`none` models a naive datetime). -/
structure ParsedTime where
  wall : Int
  offset : Option Int
deriving DecidableEq, Repr

/-- Embeds datetime.replace with tzinfo set to None: the wall-clock fields are
kept and the offset is simply dropped, with no conversion.  This is what
sync_manager.py line 173 does to the created_at of the previous status
update. -/
def naiveify (t : ParsedTime) : Int := t.wall

/-- Embeds datetime.astimezone(timezone.utc) followed by replace dropping
tzinfo, as done in jira_api.py lines 81 to 85 for comment creation times: an
aware time is converted to UTC before the offset is dropped, a naive time is
kept as is. -/
def to_utc_naive (t : ParsedTime) : Int :=
  match t.offset with
  | none => t.wall
  | some off => t.wall - off

/-! ## Jira API client (src/src/jira_api.py) -/

/-- One entry of the comments array returned by the Jira REST endpoint, the
fields read by get_comments_since. -/
structure RawComment where
  id : String
  author : String
  body : String
  rendered_body : String
  created : ParsedTime
deriving DecidableEq, Repr

/-- One element of the list built by get_comments_since: the comment fields
with the creation time already normalized to naive UTC. -/
structure JiraComment where
  id : String
  author : String
  body : String
  rendered_body : String
  created : Int
deriving DecidableEq, Repr

/-- The record get_comments_since builds from a raw comment (jira_api.py
lines 89 to 96), with the normalized creation date. -/
def mk_jira_comment (c : RawComment) : JiraComment :=
  { id := c.id, author := c.author, body := c.body,
    rendered_body := c.rendered_body, created := to_utc_naive c.created }

/-- Ascending comparison on normalized comment creation times, the key of the
final sort in get_comments_since (jira_api.py line 99). -/
def jira_comment_le (a b : JiraComment) : Prop := a.created ≤ b.created

instance : DecidableRel jira_comment_le :=
  fun a b => inferInstanceAs (Decidable (a.created ≤ b.created))

instance : IsTotal JiraComment jira_comment_le :=
  ⟨fun a b => le_total a.created b.created⟩

instance : IsTrans JiraComment jira_comment_le :=
  ⟨fun _ _ _ h1 h2 => le_trans h1 h2⟩

/-- Embeds JiraAPI.get_comments_since (jira_api.py lines 65 to 104).  The
HTTP exchange is abstracted as an Except value: an ok value carries the
comments array of the response, an error models a raised
requests RequestException.  On error the source prints a message and returns
an empty list; on success it keeps exactly the comments whose normalized
creation time is strictly greater than since_date, then sorts them ascending
by creation time. -/
def get_comments_since (resp : Except String (List RawComment)) (since_date : Int) :
    List JiraComment :=
  match resp with
  | .error _ => []
  | .ok data =>
    let comments := data.filterMap (fun c =>
      let jc := mk_jira_comment c
      if jc.created > since_date then some jc else none)
    List.insertionSort jira_comment_le comments

/-- Embeds JiraAPI.get_ticket (jira_api.py lines 38 to 48): on a transport
error the source prints a message and returns None, otherwise it returns the
decoded response payload. -/
def get_ticket {α : Type} (resp : Except String α) : Option α :=
  match resp with
  | .ok payload => some payload
  | .error _ => none

/-! ## Asana API client (src/src/asana_api.py) -/

/-- The goal fields used by the sync manager. -/
structure AsanaGoal where
  gid : String
  name : String
deriving DecidableEq, Repr

/-- Embeds AsanaAPI.get_goal_by_id (asana_api.py lines 35 to 41): an API
exception is re-raised as a RuntimeError carrying a message, a successful
response is returned unchanged. -/
def get_goal_by_id (goal_gid : String) (resp : Except String AsanaGoal) :
    Except String AsanaGoal :=
  match resp with
  | .ok g => .ok g
  | .error e => .error ("Failed to get goal by ID " ++ goal_gid ++ ": " ++ e)

/-- ASCII uppercase letter test, the character class A to Z of the ticket
pattern in asana_api.py line 163. -/
def is_ascii_upper (c : Char) : Bool := 'A' ≤ c && c ≤ 'Z'

/-- ASCII digit test, the digit class of the ticket pattern. -/
def is_ascii_digit (c : Char) : Bool := '0' ≤ c && c ≤ '9'

/-- Attempt to match the regex pattern of uppercase letters, a dash and
digits at the start of the character list, with greedy quantifiers: the
match takes the maximal uppercase run, requires a dash and at least one
digit, and takes the maximal digit run. -/
def match_ticket_key_at (l : List Char) : Option (List Char) :=
  let ups := l.takeWhile is_ascii_upper
  if ups.isEmpty then none
  else
    match l.drop ups.length with
    | '-' :: rest =>
      let digits := rest.takeWhile is_ascii_digit
      if digits.isEmpty then none else some (ups ++ '-' :: digits)
    | _ => none

/-- Leftmost search for the ticket pattern, embedding re.search: start
positions are tried left to right and the first position admitting a match
wins. -/
def search_ticket_key_chars : List Char → Option (List Char)
  | [] => none
  | c :: rest =>
    match match_ticket_key_at (c :: rest) with
    | some m => some m
    | none => search_ticket_key_chars rest

/-- Embeds re.search of the Jira ticket pattern against one attachment name
(asana_api.py lines 163 to 168), returning the matched group. -/
def search_jira_ticket_key (s : String) : Option String :=
  (search_ticket_key_chars s.data).map (fun l => String.mk l)

/-- Embeds AsanaAPI private helper get_jira_ticket_from_attachments
(asana_api.py lines 156 to 169) applied to the attachment name list: the
first attachment, in attachment order, whose name matches the ticket pattern
yields the key; with no match the result is None. -/
def get_jira_ticket_from_attachments : List String → Option String
  | [] => none
  | n :: rest =>
    match search_jira_ticket_key n with
    | some k => some k
    | none => get_jira_ticket_from_attachments rest

/-! ### HTML conversion (asana_api.py lines 230 to 297)

The parsed HTML fragment is a forest of nodes; an element node carries its
tag name, its attribute list and its children.  The mutual inductive keeps
every conversion pass structurally recursive, so concrete inputs evaluate
definitionally. -/

mutual
inductive HNode where
  | text : String → HNode
  | elem : String → List (String × String) → HForest → HNode
inductive HForest where
  | nil : HForest
  | cons : HNode → HForest → HForest
end

/-- Forest concatenation, used when a tag is unwrapped in place. -/
def happend : HForest → HForest → HForest
  | .nil, g => g
  | .cons h t, g => .cons h (happend t g)

/-- The tag names removed by the first conversion pass (asana_api.py line
238). -/
def unsupported_tags : List String :=
  ["script", "style", "meta", "head", "html", "title", "span", "img"]

/-- The header tag names collapsed to strong (asana_api.py line 244). -/
def header_tags : List String := ["h1", "h2", "h3", "h4", "h5", "h6"]

/-- Embeds BeautifulSoup element.unwrap applied to every element whose name
is in the given list: the tag is removed and its content is kept in place,
recursively. -/
def unwrap_tags (names : List String) : HForest → HForest
  | .nil => .nil
  | .cons (.text s) t => .cons (.text s) (unwrap_tags names t)
  | .cons (.elem n a c) t =>
    if names.contains n then happend (unwrap_tags names c) (unwrap_tags names t)
    else .cons (.elem n a (unwrap_tags names c)) (unwrap_tags names t)

/-- Embeds BeautifulSoup get_text: the concatenation of every descendant
text node in document order. -/
def get_text : HForest → String
  | .nil => ""
  | .cons (.text s) t => s ++ get_text t
  | .cons (.elem _ _ c) t => get_text c ++ get_text t

/-- Embeds the replace_with passes of asana_api.py lines 244 to 259: every
element whose name is in src_names is replaced by a fresh dst element whose
single child is the plain get_text of the old element (all inner markup is
flattened away, as new_tag.string does). -/
def convert_tags_to_text_tag (src_names : List String) (dst : String) : HForest → HForest
  | .nil => .nil
  | .cons (.text s) t => .cons (.text s) (convert_tags_to_text_tag src_names dst t)
  | .cons (.elem n a c) t =>
    if src_names.contains n then
      .cons (.elem dst [] (.cons (.text (get_text c)) .nil))
        (convert_tags_to_text_tag src_names dst t)
    else
      .cons (.elem n a (convert_tags_to_text_tag src_names dst c))
        (convert_tags_to_text_tag src_names dst t)

/-- Embeds the br pass (asana_api.py lines 262 to 263): every br element is
replaced by a newline text node. -/
def convert_br : HForest → HForest
  | .nil => .nil
  | .cons (.text s) t => .cons (.text s) (convert_br t)
  | .cons (.elem n a c) t =>
    if n == "br" then .cons (.text "\n") (convert_br t)
    else .cons (.elem n a (convert_br c)) (convert_br t)

/-- Lookup of the href attribute in an attribute list. -/
def href_of (attrs : List (String × String)) : Option String :=
  (attrs.find? (fun p => p.fst == "href")).map (fun p => p.snd)

/-- Embeds the link cleanup pass (asana_api.py lines 266 to 273): a link
without a usable href (absent, empty or whitespace only) is unwrapped to its
content; otherwise every attribute but href is dropped. -/
def clean_links : HForest → HForest
  | .nil => .nil
  | .cons (.text s) t => .cons (.text s) (clean_links t)
  | .cons (.elem n a c) t =>
    if n == "a" then
      match href_of a with
      | none => happend (clean_links c) (clean_links t)
      | some h =>
        if (py_strip h).isEmpty then happend (clean_links c) (clean_links t)
        else .cons (.elem "a" [("href", h)] (clean_links c)) (clean_links t)
    else .cons (.elem n a (clean_links c)) (clean_links t)

/-- Embeds the attribute scrub pass (asana_api.py lines 276 to 283): links
keep only a non empty href, every other element loses all attributes. -/
def scrub_attributes : HForest → HForest
  | .nil => .nil
  | .cons (.text s) t => .cons (.text s) (scrub_attributes t)
  | .cons (.elem n a c) t =>
    let a2 :=
      if n == "a" then
        match href_of a with
        | some h => if h.isEmpty then [] else [("href", h)]
        | none => []
      else []
    .cons (.elem n a2 (scrub_attributes c)) (scrub_attributes t)

/-- Serialization of an attribute list in the BeautifulSoup output style. -/
def serialize_attrs : List (String × String) → String
  | [] => ""
  | (k, v) :: t => " " ++ k ++ "=\"" ++ v ++ "\"" ++ serialize_attrs t

/-- Embeds str(soup): text nodes verbatim, elements with opening and closing
tags around their serialized children. -/
def serialize : HForest → String
  | .nil => ""
  | .cons (.text s) t => s ++ serialize t
  | .cons (.elem n a c) t =>
    "<" ++ n ++ serialize_attrs a ++ ">" ++ serialize c ++ "</" ++ n ++ ">" ++ serialize t

/-- Embeds the whitespace cleanup of asana_api.py line 294: the text is split
on newlines, each line is stripped, empty lines are dropped and the rest is
joined with newlines. -/
def cleanup_lines (s : String) : String :=
  String.intercalate "\n"
    ((((split_on_nl s.data).map (fun l => py_strip (String.mk l)))).filter (fun l => !l.isEmpty))

/-- Embeds AsanaAPI conversion convert_html_to_asana_format_impl
(asana_api.py lines 230 to 297) on the parsed fragment: unwrap unsupported
tags keeping content, collapse headers to strong, b to strong, i to em, br
to newline, clean links, scrub attributes, unwrap p and div, serialize,
strip body tags, clean whitespace and wrap the result in a body tag. -/
def convert_html_to_asana_format_impl (parsed : HForest) : String :=
  let step1 := unwrap_tags unsupported_tags parsed
  let step2 := convert_tags_to_text_tag header_tags "strong" step1
  let step3 := convert_tags_to_text_tag ["b"] "strong" step2
  let step4 := convert_tags_to_text_tag ["i"] "em" step3
  let step5 := convert_br step4
  let step6 := clean_links step5
  let step7 := scrub_attributes step6
  let step8 := unwrap_tags ["p", "div"] step7
  let text := serialize step8
  let text2 := str_remove_all (str_remove_all text "<body>") "</body>"
  "<body>" ++ cleanup_lines text2 ++ "</body>"

/-! ## Sync manager (src/src/sync_manager.py) -/

/-- Python truthiness of an optional string: None and the empty string are
falsy. -/
def truthy_str : Option String → Bool
  | none => false
  | some s => !s.isEmpty

/-- The latest goal status update as read back from Asana, the fields used
by create_goal_status_update; a missing text field is represented by the
empty string, which has the same truthiness. -/
structure AsanaStatusUpdate where
  created_at : ParsedTime
  text : String
deriving DecidableEq, Repr

/-- One entry of jira_tickets_info as built in process_single_goal
(sync_manager.py lines 504 to 509). -/
structure TicketInfo where
  task_name : String
  jira_ticket : String
  jira_status : String
  source : String
deriving DecidableEq, Repr

/-- One entry of all_new_comments as built in create_goal_status_update
(sync_manager.py lines 188 to 194). -/
structure NewComment where
  jira_ticket : String
  task_name : String
  author : String
  created : Int
  text : String
deriving DecidableEq, Repr

/-- One task returned by the goal relationship query, the fields read by
process_single_goal. -/
structure TaskRec where
  gid : Option String
  name : String
deriving DecidableEq, Repr

/-- The environment of one goal sync pass: every external query result the
code reads, plus whether the final status creation write would succeed.  The
field get_ticket_status stands for the Jira adapter call of the same name
made at sync_manager.py line 501; that method is not present under src, so,
following the spec interface getTicketHealthAndCompletion, its result is the
health indicator string of the ticket or none when it cannot be retrieved.
The field fmt_time abstracts datetime.strftime for the comment timestamp
display. -/
structure SyncEnv where
  now : Int
  fmt_time : Int → String
  goal_tasks : List TaskRec
  task_exists : String → Bool
  attachments : String → List String
  get_ticket_status : String → Option String
  latest_goal_status_update : Option AsanaStatusUpdate
  jira_comments_response : String → Except String (List RawComment)
  create_status_ok : Bool

/-- Embeds AsanaAPI.get_task_details (asana_api.py lines 144 to 154) for the
fields the sync manager reads: when the task exists its details carry the
ticket key extracted from the attachment names, otherwise there are no
details. -/
def task_details_jira_ticket (env : SyncEnv) (task_gid : String) : Option (Option String) :=
  if env.task_exists task_gid then
    some (get_jira_ticket_from_attachments (env.attachments task_gid))
  else none

/-- Embeds the task loop of process_single_goal (sync_manager.py lines 486
to 511): tasks without a truthy gid, without details or without a resolvable
ticket key are skipped silently; a ticket whose status lookup is falsy makes
the whole collection raise a RuntimeError; otherwise a TicketInfo record is
appended in task order. -/
def collect_jira_tickets_info (env : SyncEnv) (goal_name : String) :
    List TaskRec → Except String (List TicketInfo)
  | [] => .ok []
  | task :: rest =>
    if !truthy_str task.gid then collect_jira_tickets_info env goal_name rest
    else
      match task_details_jira_ticket env (task.gid.getD "") with
      | none => collect_jira_tickets_info env goal_name rest
      | some ticket_key =>
        if !truthy_str ticket_key then collect_jira_tickets_info env goal_name rest
        else
          let jt := ticket_key.getD ""
          let jstat := env.get_ticket_status jt
          if truthy_str jstat then
            Except.map
              (fun infos =>
                { task_name := task.name, jira_ticket := jt,
                  jira_status := jstat.getD "",
                  source := "goal: " ++ goal_name } :: infos)
              (collect_jira_tickets_info env goal_name rest)
          else .error ("Could not get Jira status for ticket " ++ jt)

/-- Embeds the since computation of create_goal_status_update
(sync_manager.py lines 164 to 173): the created_at of the previous status
update with the offset dropped when one exists, otherwise now minus seven
days. -/
def compute_since_date (env : SyncEnv) : Int :=
  match env.latest_goal_status_update with
  | some s => naiveify s.created_at
  | none => env.now - 7 * 24 * 60 * 60

/-- Embeds the comment collection loop of create_goal_status_update
(sync_manager.py lines 181 to 194): for each ticket record, in order, the
comments returned by the Jira client are tagged with the ticket key and task
name. -/
def collect_new_comments (env : SyncEnv) (since_date : Int) :
    List TicketInfo → List NewComment
  | [] => []
  | ti :: rest =>
    (get_comments_since (env.jira_comments_response ti.jira_ticket) since_date).map
      (fun c =>
        { jira_ticket := ti.jira_ticket, task_name := ti.task_name,
          author := c.author, created := c.created, text := c.rendered_body })
    ++ collect_new_comments env since_date rest

/-- Insertion or overwrite in an association list, the behaviour of a Python
dict assignment with insertion order preserved. -/
def upsert_status (m : List (String × String)) (k v : String) : List (String × String) :=
  if m.any (fun p => p.fst == k) then m.map (fun p => if p.fst == k then (k, v) else p)
  else m ++ [(k, v)]

/-- Embeds the current_ticket_statuses dict of create_goal_status_update
(sync_manager.py lines 179 to 183). -/
def current_ticket_statuses (infos : List TicketInfo) : List (String × String) :=
  infos.foldl (fun m ti => upsert_status m ti.jira_ticket ti.jira_status) []

/-- Embeds the status change detection of create_goal_status_update
(sync_manager.py lines 196 to 211): with a previous update whose text is
truthy, a change is detected when some current ticket entry does not have
both its bracketed key and its status pattern present in the previous
text. -/
def status_changes_detected (latest : Option AsanaStatusUpdate)
    (infos : List TicketInfo) : Bool :=
  match latest with
  | none => false
  | some l =>
    if l.text.isEmpty then false
    else
      (current_ticket_statuses infos).any (fun p =>
        !(str_contains_sub l.text ("[" ++ p.fst ++ "]") &&
          str_contains_sub l.text ("(" ++ p.snd ++ " -")))

/-- Descending comparison on comment creation times, the key of the newest
first sort at sync_manager.py line 214. -/
def new_comment_ge (a b : NewComment) : Prop := b.created ≤ a.created

instance : DecidableRel new_comment_ge :=
  fun a b => inferInstanceAs (Decidable (b.created ≤ a.created))

instance : IsTotal NewComment new_comment_ge :=
  ⟨fun a b => (le_total b.created a.created)⟩

instance : IsTrans NewComment new_comment_ge :=
  ⟨fun _ _ _ h1 h2 => le_trans h2 h1⟩

/-- Embeds the global newest first sort of all_new_comments (sync_manager.py
line 214); insertion sort matches the stable Python list sort. -/
def sort_comments_desc (l : List NewComment) : List NewComment :=
  List.insertionSort new_comment_ge l

/-- The Jira status values counted as done (sync_manager.py line 229, also
the first bucket of map_jira_status_to_asana at line 31). -/
def done_statuses : List String := ["done", "complete", "resolved", "closed"]

/-- The Jira status values counted as blocked (sync_manager.py line 231,
also the second bucket of map_jira_status_to_asana at line 33). -/
def blocked_statuses : List String := ["blocked", "on hold", "waiting"]

/-- The third bucket of map_jira_status_to_asana (sync_manager.py line
35). -/
def in_progress_statuses : List String := ["in progress", "development", "testing"]

/-- Association list lookup, the behaviour of Python dict.get with a
default. -/
def lookup_mapping (m : List (String × String)) (k : String) : Option String :=
  (m.find? (fun p => p.fst == k)).map (fun p => p.snd)

/-- Embeds SyncManager.map_jira_status_to_asana (sync_manager.py lines 26 to
38): the status is first sent through the configured mapping table with the
identity as default, then lowercased and bucketed, with on_track as the
final default. -/
def map_jira_status_to_asana (status_mapping : List (String × String))
    (jira_status : String) : String :=
  let mapped_status := (lookup_mapping status_mapping jira_status).getD jira_status
  if done_statuses.contains (str_to_lower mapped_status) then "complete"
  else if blocked_statuses.contains (str_to_lower mapped_status) then "at_risk"
  else if in_progress_statuses.contains (str_to_lower mapped_status) then "on_track"
  else "on_track"

/-- The default status mapping of main.py lines 88 to 93. -/
def default_status_mapping : List (String × String) :=
  [("green", "on_track"), ("amber", "at_risk"), ("red", "off_track"),
   ("Temporary paused", "dropped")]

/-- Embeds the aggregate status derivation of create_goal_status_update
(sync_manager.py lines 226 to 238): complete when every ticket status is in
the done bucket, at_risk when at least one is in the blocked bucket,
on_track otherwise. -/
def aggregate_status_type (infos : List TicketInfo) : String :=
  let total_tickets := infos.length
  let done_tickets := infos.countP (fun t => done_statuses.contains (str_to_lower t.jira_status))
  let blocked_tickets := infos.countP (fun t => blocked_statuses.contains (str_to_lower t.jira_status))
  if done_tickets = total_tickets then "complete"
  else if 0 < blocked_tickets then "at_risk"
  else "on_track"

/-- The per ticket comment filter of build_status_text_html
(sync_manager.py line 275). -/
def ticket_comments (all_new : List NewComment) (ticket : String) : List NewComment :=
  all_new.filter (fun c => c.jira_ticket == ticket)

/-- The per ticket comment cap of build_status_text_html (sync_manager.py
line 278): the first five of the filtered list. -/
def shown_comments (all_new : List NewComment) (ticket : String) : List NewComment :=
  (ticket_comments all_new ticket).take 5

/-- One rendered comment line of build_status_text_html (sync_manager.py
lines 279 to 283). -/
def build_comment_html (fmt : Int → String) (c : NewComment) : String :=
  "<em>" ++ c.author ++ " (" ++ fmt c.created ++ ")</em>\n" ++ c.text ++ "\n"

/-- The per ticket block of build_status_text_html (sync_manager.py lines
266 to 287). -/
def build_ticket_html (fmt : Int → String) (all_new : List NewComment)
    (ti : TicketInfo) : String :=
  let jira_url := "https://keboola.atlassian.net/browse/" ++ ti.jira_ticket
  let top := "<a href=\"" ++ jira_url ++ "\">" ++ ti.task_name ++ "</a>\n"
    ++ "<strong>Status:</strong> " ++ ti.jira_status ++ "\n"
    ++ "<strong>New comments:</strong>\n"
  let tc := ticket_comments all_new ti.jira_ticket
  let middle :=
    if tc.isEmpty then " No new comments."
    else String.join ((shown_comments all_new ti.jira_ticket).map (build_comment_html fmt))
      ++ "----------\n"
  top ++ middle ++ "\n"

/-- Embeds SyncManager.build_status_text_html (sync_manager.py lines 263 to
290). -/
def build_status_text_html (fmt : Int → String) (all_new : List NewComment)
    (infos : List TicketInfo) : String :=
  "<body>" ++ "<strong>🚀 Automatic Activity Update</strong>\n"
    ++ String.join (infos.map (build_ticket_html fmt all_new))
    ++ "\n" ++ "</body>"

/-- One side effecting write of the sync pass: a live status creation or its
dry run preview. -/
inductive SyncAction where
  | create_status : String → String → String → String → SyncAction
  | preview_status : String → String → String → SyncAction
deriving DecidableEq, Repr

/-- Embeds SyncManager.create_goal_status_update (sync_manager.py lines 160
to 261).  The Python method returns True both on the no update needed path
and after a creation; the embedding additionally records the performed
writes, so the boolean result is paired with the list of actions: empty for
the no op, a preview action in dry run mode, a creation action live, and a
raised RuntimeError when the live write fails. -/
def create_goal_status_update (env : SyncEnv) (dry_run : Bool)
    (goal_gid goal_name : String) (jira_tickets_info : List TicketInfo) :
    Except String (Bool × List SyncAction) :=
  let latest_status := env.latest_goal_status_update
  let since_date := compute_since_date env
  let collected := collect_new_comments env since_date jira_tickets_info
  let changes := status_changes_detected latest_status jira_tickets_info
  let all_new_comments := sort_comments_desc collected
  let has_new_activity := decide (0 < all_new_comments.length)
  let is_first_status := latest_status.isNone
  if !has_new_activity && !changes && !is_first_status then
    .ok (true, [])
  else
    let status_type := aggregate_status_type jira_tickets_info
    let title := "Status Sync"
    let status_text := build_status_text_html env.fmt_time all_new_comments jira_tickets_info
    if dry_run then .ok (true, [.preview_status title status_text status_type])
    else if env.create_status_ok then
      .ok (true, [.create_status goal_gid title status_text status_type])
    else .error "Failed to create Asana goal status update"

/-- Embeds SyncManager.process_single_goal (sync_manager.py lines 466 to
521): zero processed when the goal has no linked tasks or no resolvable Jira
tickets, one processed when the update path completed; errors from the
collection or the creation propagate. -/
def process_single_goal (env : SyncEnv) (dry_run : Bool)
    (goal_gid goal_name : String) : Except String (Nat × List SyncAction) :=
  if env.goal_tasks.isEmpty then .ok (0, [])
  else
    match collect_jira_tickets_info env goal_name env.goal_tasks with
    | .error e => .error e
    | .ok jira_tickets_info =>
      if jira_tickets_info.isEmpty then .ok (0, [])
      else
        match create_goal_status_update env dry_run goal_gid goal_name jira_tickets_info with
        | .error e => .error e
        | .ok (_, acts) => .ok (1, acts)

/-- Observation helper: whether a create_goal_status_update result performed
or previewed a write. -/
def did_post (r : Except String (Bool × List SyncAction)) : Bool :=
  match r with
  | .ok (_, acts) => !acts.isEmpty
  | .error _ => false

/-- The status type carried by a sync action. -/
def action_status_type : SyncAction → String
  | .create_status _ _ _ st => st
  | .preview_status _ _ st => st

/-- Observation helper: the status types of all writes performed or
previewed by a create_goal_status_update result. -/
def posted_status_types (r : Except String (Bool × List SyncAction)) : List String :=
  match r with
  | .ok (_, acts) => acts.map action_status_type
  | .error _ => []

/-- Observation helper: whether a result is a raised error. -/
def is_error {α : Type} (r : Except String α) : Bool :=
  match r with
  | .error _ => true
  | .ok _ => false

/-! ## Concrete fixtures used by the claim instances -/

/-- The parsed form of the HTML fragment h2 Title, script x, a without
href from the specification example. -/
def html_fragment_example : HForest :=
  .cons (.elem "h2" [] (.cons (.text "Title") .nil))
    (.cons (.elem "script" [] (.cons (.text "x") .nil))
      (.cons (.elem "a" [] (.cons (.text "no-href") .nil)) .nil))

/-- Environment with a previous status update whose text mentions neither
the ticket key nor the ticket status, and with no Jira comments at all. -/
def cex_prev_env : SyncEnv :=
  { now := 1000000, fmt_time := fun _ => "",
    goal_tasks := [], task_exists := fun _ => false, attachments := fun _ => [],
    get_ticket_status := fun _ => none,
    latest_goal_status_update :=
      some { created_at := { wall := 500, offset := some 0 }, text := "old update text" },
    jira_comments_response := fun _ => .ok [],
    create_status_ok := true }

/-- A single ticket record whose status is not reflected in the previous
update text of cex_prev_env. -/
def cex_prev_records : List TicketInfo :=
  [{ task_name := "Task A", jira_ticket := "AB-1", jira_status := "Blocked",
     source := "goal: G" }]

/-- First run environment with no previous update and no comments. -/
def cex_first_env : SyncEnv :=
  { now := 1000000, fmt_time := fun _ => "",
    goal_tasks := [], task_exists := fun _ => false, attachments := fun _ => [],
    get_ticket_status := fun _ => none,
    latest_goal_status_update := none,
    jira_comments_response := fun _ => .ok [],
    create_status_ok := true }

/-- Two ticket records: the first with health indicator green, the second
with status Blocked. -/
def cex_mixed_records : List TicketInfo :=
  [{ task_name := "T1", jira_ticket := "AB-1", jira_status := "green", source := "goal: G" },
   { task_name := "T2", jira_ticket := "AB-2", jira_status := "Blocked", source := "goal: G" }]

/-- Seven comments on ticket K with distinct creation times, plus one on
another ticket, in arbitrary order. -/
def w5_comments : List NewComment :=
  [{ jira_ticket := "K", task_name := "T", author := "a1", created := 3, text := "c3" },
   { jira_ticket := "K", task_name := "T", author := "a2", created := 7, text := "c7" },
   { jira_ticket := "L", task_name := "U", author := "b1", created := 9, text := "d9" },
   { jira_ticket := "K", task_name := "T", author := "a3", created := 1, text := "c1" },
   { jira_ticket := "K", task_name := "T", author := "a4", created := 6, text := "c6" },
   { jira_ticket := "K", task_name := "T", author := "a5", created := 4, text := "c4" },
   { jira_ticket := "K", task_name := "T", author := "a6", created := 2, text := "c2" },
   { jira_ticket := "K", task_name := "T", author := "a7", created := 5, text := "c5" }]

/-- Environment with one linked task resolving to ticket AB-1 whose status
lookup fails. -/
def w7_env : SyncEnv :=
  { now := 0, fmt_time := fun _ => "",
    goal_tasks := [{ gid := some "t1", name := "Task" }],
    task_exists := fun g => g == "t1",
    attachments := fun _ => ["AB-1-spec.txt"],
    get_ticket_status := fun _ => none,
    latest_goal_status_update := none,
    jira_comments_response := fun _ => .ok [],
    create_status_ok := true }

/-- Environment with one task without any attachment matching the ticket
pattern. -/
def w8_env : SyncEnv :=
  { now := 0, fmt_time := fun _ => "",
    goal_tasks := [{ gid := some "t1", name := "Design task" }],
    task_exists := fun g => g == "t1",
    attachments := fun _ => ["readme.md"],
    get_ticket_status := fun _ => none,
    latest_goal_status_update := none,
    jira_comments_response := fun _ => .ok [],
    create_status_ok := true }

/-- A task with a truthy gid used by the skip instance. -/
def w8_task : TaskRec := { gid := some "t1", name := "Design task" }

/-- Environment driving the full first run update path: one task resolving
to ticket AB-9 with status In Progress and no comments. -/
def w9_env : SyncEnv :=
  { now := 0, fmt_time := fun _ => "",
    goal_tasks := [{ gid := some "t1", name := "T" }],
    task_exists := fun g => g == "t1",
    attachments := fun _ => ["AB-9-doc.txt"],
    get_ticket_status := fun _ => some "In Progress",
    latest_goal_status_update := none,
    jira_comments_response := fun _ => .ok [],
    create_status_ok := true }

/-! ## Claim theorems -/

/-- C3 counterexample: on the fragment h2 Title, script x, a without href,
the conversion keeps the script content x (the script tag is unwrapped, not
dropped with its content), so the output differs from the claimed
strong Title strong no-href rendering. -/
theorem C3_markup_flattening_cex :
    convert_html_to_asana_format_impl html_fragment_example =
      "<body><strong>Title</strong>xno-href</body>" ∧
    "<body><strong>Title</strong>xno-href</body>" ≠
      "<body><strong>Title</strong>no-href</body>" :=
  ⟨rfl, by decide⟩

/-- C3 amended: the conversion unwraps the script element keeping its
content, so the fragment renders (inside the body wrapper) as strong Title
strong followed by the script text x and the unwrapped link text; the
heading collapses to strong, the hrefless link is unwrapped to plain text
and no attribute survives. -/
theorem C3_markup_flattening_amended :
    unwrap_tags unsupported_tags
        (.cons (.elem "script" [] (.cons (.text "x") .nil)) .nil) =
      .cons (.text "x") .nil ∧
    convert_html_to_asana_format_impl html_fragment_example =
      "<body>" ++ "<strong>Title</strong>xno-href" ++ "</body>" :=
  ⟨rfl, rfl⟩

/-- C6 counterexample: a transport error on a Jira ticket fetch silently
yields None, and a transport error on a Jira comment fetch silently yields
an empty comment list, instead of propagating as a fatal error. -/
theorem C6_transport_failure_cex :
    get_ticket (Except.error "network error" : Except String String) = none ∧
    get_comments_since (Except.error "network error") 0 = [] :=
  ⟨rfl, rfl⟩

/-- C6 amended: transport failures from the Asana client are re-raised as
fatal RuntimeErrors, but the Jira client catches its transport errors: a
failed ticket fetch returns None and a failed comment fetch returns an
empty list; no retry happens anywhere. -/
theorem C6_transport_failure_amended :
    (∀ e : String, get_ticket (Except.error e : Except String String) = none) ∧
    (∀ (e : String) (since : Int), get_comments_since (Except.error e) since = []) ∧
    (∀ gid e : String, is_error (get_goal_by_id gid (Except.error e)) = true) ∧
    (∀ (gid : String) (g : AsanaGoal), get_goal_by_id gid (Except.ok g) = Except.ok g) :=
  ⟨fun _ => rfl, fun _ _ => rfl, fun _ _ => rfl, fun _ _ => rfl⟩

/-- C10: map_jira_status_to_asana is total and always returns one of
complete, at_risk or on_track for every mapping table and input status;
the default mapping values off_track (for red) and dropped (for Temporary
paused) are not returned verbatim but collapse to on_track. -/
theorem C10_status_mapping_range :
    (∀ (m : List (String × String)) (s : String),
      map_jira_status_to_asana m s = "complete" ∨
      map_jira_status_to_asana m s = "at_risk" ∨
      map_jira_status_to_asana m s = "on_track") ∧
    map_jira_status_to_asana default_status_mapping "red" = "on_track" ∧
    map_jira_status_to_asana default_status_mapping "Temporary paused" = "on_track" := by
  refine ⟨fun m s => ?_, by decide, by decide⟩
  unfold map_jira_status_to_asana
  dsimp only
  split
  · exact Or.inl rfl
  · split
    · exact Or.inr (Or.inl rfl)
    · split
      · exact Or.inr (Or.inr rfl)
      · exact Or.inr (Or.inr rfl)

/-- Helper: with no attachment name matching the ticket pattern the
extraction returns None. -/
theorem extract_none_of_all_none {names : List String}
    (h : ∀ n ∈ names, search_jira_ticket_key n = none) :
    get_jira_ticket_from_attachments names = none := by
  induction names with
  | nil => rfl
  | cons n rest ih =>
    have hn := h n (List.mem_cons_self n rest)
    have hrest := ih (fun m hm => h m (List.mem_cons_of_mem n hm))
    simp [get_jira_ticket_from_attachments, hn, hrest]

/-- C4: the comment collection window starts at the created_at of the
previous status update (which equals its naive UTC normalization whenever
the stored offset is zero), and otherwise at now minus seven days; a raw
comment is kept exactly when its UTC normalized creation time is strictly
greater than the window start, so a comment one second before the previous
update time is excluded and a comment one second after it is included. -/
theorem C4_comment_window (T0 : Int) (prev : AsanaStatusUpdate)
    (c_before c_after : RawComment)
    (env env_first : SyncEnv)
    (hoff : prev.created_at.offset = some 0)
    (hT : naiveify prev.created_at = T0)
    (hb : to_utc_naive c_before.created = T0 - 1)
    (ha : to_utc_naive c_after.created = T0 + 1)
    (henv : env.latest_goal_status_update = some prev)
    (hfirst : env_first.latest_goal_status_update = none) :
    compute_since_date env = T0 ∧
    to_utc_naive prev.created_at = T0 ∧
    compute_since_date env_first = env_first.now - 7 * 24 * 60 * 60 ∧
    get_comments_since (Except.ok [c_before]) T0 = [] ∧
    get_comments_since (Except.ok [c_after]) T0 = [mk_jira_comment c_after] := by
  refine ⟨?_, ?_, ?_, ?_, ?_⟩
  · simp only [compute_since_date, henv]
    exact hT
  · have hw : prev.created_at.wall = T0 := hT
    simp only [to_utc_naive, hoff]
    omega
  · simp only [compute_since_date, hfirst]
  · have hc : ¬ ((mk_jira_comment c_before).created > T0) := by
      have : (mk_jira_comment c_before).created = T0 - 1 := hb
      omega
    simp [get_comments_since, hc]
  · have hc : (mk_jira_comment c_after).created > T0 := by
      have : (mk_jira_comment c_after).created = T0 + 1 := ha
      omega
    simp [get_comments_since, hc, List.insertionSort]

/-- C4 instance at concrete values: previous update at time 100 with zero
offset, one comment at 99 excluded, one at 101 included. -/
theorem C4_comment_window_witness :
    (({ created_at := { wall := 100, offset := some 0 }, text := "t" } :
        AsanaStatusUpdate).created_at.offset = some 0) ∧
    (naiveify ({ created_at := { wall := 100, offset := some 0 }, text := "t" } :
        AsanaStatusUpdate).created_at = 100) ∧
    (to_utc_naive ({ wall := 99, offset := none } : ParsedTime) = 100 - 1) ∧
    (to_utc_naive ({ wall := 101, offset := none } : ParsedTime) = 100 + 1) ∧
    (cex_prev_env.latest_goal_status_update =
      some { created_at := { wall := 500, offset := some 0 }, text := "old update text" }) ∧
    (cex_first_env.latest_goal_status_update = none) ∧
    (compute_since_date cex_prev_env = 500 ∧
     to_utc_naive ({ created_at := { wall := 500, offset := some 0 }, text := "old update text" } :
        AsanaStatusUpdate).created_at = 500 ∧
     compute_since_date cex_first_env = cex_first_env.now - 7 * 24 * 60 * 60 ∧
     get_comments_since (Except.ok
        [{ id := "1", author := "a", body := "b", rendered_body := "r",
           created := { wall := 499, offset := none } }]) 500 = [] ∧
     get_comments_since (Except.ok
        [{ id := "2", author := "a", body := "b", rendered_body := "r",
           created := { wall := 501, offset := none } }]) 500 =
       [mk_jira_comment
         { id := "2", author := "a", body := "b", rendered_body := "r",
           created := { wall := 501, offset := none } }]) :=
  ⟨rfl, rfl, by decide, by decide, rfl, rfl,
    C4_comment_window 500
      { created_at := { wall := 500, offset := some 0 }, text := "old update text" }
      { id := "1", author := "a", body := "b", rendered_body := "r",
        created := { wall := 499, offset := none } }
      { id := "2", author := "a", body := "b", rendered_body := "r",
        created := { wall := 501, offset := none } }
      cex_prev_env cex_first_env rfl rfl (by decide) (by decide) rfl rfl⟩

/-- C8: ticket key extraction scans attachment names in order and returns
the first regex match, so design.pdf then PROJ-123-notes.txt yields
PROJ-123; a task none of whose attachment names matches the pattern yields
no ticket key and is skipped silently by the collection loop, contributing
no ticket record and no error. -/
theorem C8_key_extraction_and_skip
    (env : SyncEnv) (goal_name : String) (task : TaskRec) (rest : List TaskRec)
    (hgid : truthy_str task.gid = true)
    (hex : env.task_exists (task.gid.getD "") = true)
    (hatt : ∀ n ∈ env.attachments (task.gid.getD ""), search_jira_ticket_key n = none) :
    get_jira_ticket_from_attachments ["design.pdf", "PROJ-123-notes.txt"] = some "PROJ-123" ∧
    get_jira_ticket_from_attachments (env.attachments (task.gid.getD "")) = none ∧
    collect_jira_tickets_info env goal_name (task :: rest) =
      collect_jira_tickets_info env goal_name rest := by
  have hnone := extract_none_of_all_none hatt
  have h9 : truthy_str (none : Option String) = false := rfl
  refine ⟨rfl, hnone, ?_⟩
  simp only [collect_jira_tickets_info, task_details_jira_ticket, hgid, hex, hnone, h9,
    Bool.not_true, Bool.not_false, if_true, if_false, ite_true, ite_false, ite_self]

/-- C8 instance at a concrete environment: a task whose only attachment is
readme.md is skipped and contributes nothing. -/
theorem C8_key_extraction_and_skip_witness :
    truthy_str w8_task.gid = true ∧
    w8_env.task_exists (w8_task.gid.getD "") = true ∧
    (∀ n ∈ w8_env.attachments (w8_task.gid.getD ""), search_jira_ticket_key n = none) ∧
    (get_jira_ticket_from_attachments ["design.pdf", "PROJ-123-notes.txt"] = some "PROJ-123" ∧
     get_jira_ticket_from_attachments (w8_env.attachments (w8_task.gid.getD "")) = none ∧
     collect_jira_tickets_info w8_env "G" (w8_task :: []) =
       collect_jira_tickets_info w8_env "G" []) :=
  ⟨by decide, by decide, by decide,
    C8_key_extraction_and_skip w8_env "G" w8_task [] (by decide) (by decide) (by decide)⟩

/-- Helper: sorting preserves the comment count. -/
theorem sort_comments_desc_length (l : List NewComment) :
    (sort_comments_desc l).length = l.length :=
  (List.perm_insertionSort new_comment_ge l).length_eq

/-- C1 counterexample: with a previous status update present and zero new
comments collected, the engine still creates a status update, because the
text of the previous update does not contain the ticket and status patterns
of the current ticket record (a status change is detected). -/
theorem C1_zero_comment_noop_cex :
    cex_prev_env.latest_goal_status_update.isSome = true ∧
    collect_new_comments cex_prev_env (compute_since_date cex_prev_env) cex_prev_records = [] ∧
    did_post (create_goal_status_update cex_prev_env false "goal-1" "Goal" cex_prev_records) = true :=
  ⟨rfl, by decide, by decide⟩

/-- C1 amended: provided the creation write succeeds, the call is a no op
(success with no write performed or previewed) exactly when a previous
update exists, zero new comments were collected and no ticket status change
is detected against the previous update text; so a first run or any new
comment triggers an update, but a detected status change with zero new
comments also does. -/
theorem C1_zero_comment_noop_amended (env : SyncEnv) (dry_run : Bool)
    (goal_gid goal_name : String) (infos : List TicketInfo)
    (hw : env.create_status_ok = true) :
    create_goal_status_update env dry_run goal_gid goal_name infos = Except.ok (true, []) ↔
      (env.latest_goal_status_update.isSome = true ∧
       collect_new_comments env (compute_since_date env) infos = [] ∧
       status_changes_detected env.latest_goal_status_update infos = false) := by
  unfold create_goal_status_update
  dsimp only
  by_cases hC : collect_new_comments env (compute_since_date env) infos = []
  · have hb1 : decide (0 < (sort_comments_desc
        (collect_new_comments env (compute_since_date env) infos)).length) = false := by
      rw [sort_comments_desc_length, hC]
      rfl
    cases hL : env.latest_goal_status_update with
    | none =>
      have hch : status_changes_detected (none : Option AsanaStatusUpdate) infos = false := rfl
      cases dry_run <;> simp [hw, hb1, hch]
    | some prev =>
      cases hCH : status_changes_detected (some prev) infos with
      | true => cases dry_run <;> simp [hw, hb1, hCH]
      | false =>
        have hs0 : sort_comments_desc ([] : List NewComment) = [] := rfl
        simp [hb1, hCH, hC, hs0]
  · have hb1 : decide (0 < (sort_comments_desc
        (collect_new_comments env (compute_since_date env) infos)).length) = true := by
      have hp : 0 < (collect_new_comments env (compute_since_date env) infos).length :=
        List.length_pos.mpr hC
      rw [sort_comments_desc_length]
      exact decide_eq_true hp
    cases hL : env.latest_goal_status_update with
    | none => cases dry_run <;> simp [hw, hb1, hC]
    | some prev => cases dry_run <;> simp [hw, hb1, hC]

/-- C1 amended instance: a first run creates an update, and the concrete no
op equivalence holds at the counterexample environment. -/
theorem C1_zero_comment_noop_amended_witness :
    cex_first_env.create_status_ok = true ∧
    (create_goal_status_update cex_first_env false "goal-1" "Goal" cex_prev_records =
        Except.ok (true, []) ↔
      (cex_first_env.latest_goal_status_update.isSome = true ∧
       collect_new_comments cex_first_env (compute_since_date cex_first_env) cex_prev_records = [] ∧
       status_changes_detected cex_first_env.latest_goal_status_update cex_prev_records = false)) :=
  ⟨rfl, C1_zero_comment_noop_amended cex_first_env false "goal-1" "Goal" cex_prev_records rfl⟩

/-- C2 counterexample: on a first run with ticket records green then
Blocked, the posted status type is at_risk, while the first ticket record
health indicator green maps through the default table to on_track; so the
aggregate status is not derived from the first ticket record through the
mapping table. -/
theorem C2_first_ticket_status_cex :
    posted_status_types
        (create_goal_status_update cex_first_env false "goal-2" "Goal2" cex_mixed_records) =
      ["at_risk"] ∧
    map_jira_status_to_asana default_status_mapping "green" = "on_track" ∧
    ("at_risk" : String) ≠ "on_track" :=
  ⟨by decide, by decide, by decide⟩

/-- Helper: the aggregate status type is complete exactly when every ticket
status lowercases into the done bucket, at_risk exactly when not all are
done and some status lowercases into the blocked bucket, and on_track in
the remaining case. -/
theorem aggregate_status_type_characterization (infos : List TicketInfo) :
    (aggregate_status_type infos = "complete" ↔
      ∀ t ∈ infos, done_statuses.contains (str_to_lower t.jira_status) = true) ∧
    (aggregate_status_type infos = "at_risk" ↔
      (¬ ∀ t ∈ infos, done_statuses.contains (str_to_lower t.jira_status) = true) ∧
      ∃ t ∈ infos, blocked_statuses.contains (str_to_lower t.jira_status) = true) ∧
    (aggregate_status_type infos = "on_track" ↔
      (¬ ∀ t ∈ infos, done_statuses.contains (str_to_lower t.jira_status) = true) ∧
      ¬ ∃ t ∈ infos, blocked_statuses.contains (str_to_lower t.jira_status) = true) := by
  have hdone : infos.countP (fun t => done_statuses.contains (str_to_lower t.jira_status)) =
      infos.length ↔
      ∀ t ∈ infos, done_statuses.contains (str_to_lower t.jira_status) = true :=
    List.countP_eq_length
  have hpos : 0 < infos.countP (fun t => blocked_statuses.contains (str_to_lower t.jira_status)) ↔
      ∃ t ∈ infos, blocked_statuses.contains (str_to_lower t.jira_status) = true :=
    List.countP_pos_iff
  unfold aggregate_status_type
  dsimp only
  by_cases h1 : infos.countP (fun t => done_statuses.contains (str_to_lower t.jira_status)) =
      infos.length
  · have hAll := hdone.mp h1
    rw [if_pos h1]
    exact ⟨⟨fun _ => hAll, fun _ => rfl⟩,
      ⟨fun h => absurd h (by decide), fun hp => absurd hAll hp.1⟩,
      ⟨fun h => absurd h (by decide), fun hp => absurd hAll hp.1⟩⟩
  · have hnall : ¬ ∀ t ∈ infos, done_statuses.contains (str_to_lower t.jira_status) = true :=
      fun hAll => h1 (hdone.mpr hAll)
    rw [if_neg h1]
    by_cases h2 : 0 < infos.countP (fun t => blocked_statuses.contains (str_to_lower t.jira_status))
    · have hex := hpos.mp h2
      rw [if_pos h2]
      exact ⟨⟨fun h => absurd h (by decide), fun hAll => absurd hAll hnall⟩,
        ⟨fun _ => ⟨hnall, hex⟩, fun _ => rfl⟩,
        ⟨fun h => absurd h (by decide), fun hp => absurd hex hp.2⟩⟩
    · have hnex : ¬ ∃ t ∈ infos, blocked_statuses.contains (str_to_lower t.jira_status) = true :=
        fun hex => h2 (hpos.mpr hex)
      rw [if_neg h2]
      exact ⟨⟨fun h => absurd h (by decide), fun hAll => absurd hAll hnall⟩,
        ⟨fun h => absurd h (by decide), fun hp => absurd hp.2 hnex⟩,
        ⟨fun _ => ⟨hnall, hnex⟩, fun _ => rfl⟩⟩

/-- Helper: a create_goal_status_update call has exactly four possible
results: the no op success, a dry run preview, a live creation, or the
raised write failure; in the three update shapes the status type is the
aggregate of all ticket records. -/
theorem create_goal_status_update_cases (env : SyncEnv) (dry_run : Bool)
    (goal_gid goal_name : String) (infos : List TicketInfo) :
    create_goal_status_update env dry_run goal_gid goal_name infos = Except.ok (true, []) ∨
    create_goal_status_update env dry_run goal_gid goal_name infos =
      Except.ok (true, [SyncAction.preview_status "Status Sync"
        (build_status_text_html env.fmt_time
          (sort_comments_desc (collect_new_comments env (compute_since_date env) infos)) infos)
        (aggregate_status_type infos)]) ∨
    create_goal_status_update env dry_run goal_gid goal_name infos =
      Except.ok (true, [SyncAction.create_status goal_gid "Status Sync"
        (build_status_text_html env.fmt_time
          (sort_comments_desc (collect_new_comments env (compute_since_date env) infos)) infos)
        (aggregate_status_type infos)]) ∨
    create_goal_status_update env dry_run goal_gid goal_name infos =
      Except.error "Failed to create Asana goal status update" := by
  unfold create_goal_status_update
  dsimp only
  split
  · exact Or.inl rfl
  · split
    · exact Or.inr (Or.inl rfl)
    · split
      · exact Or.inr (Or.inr (Or.inl rfl))
      · exact Or.inr (Or.inr (Or.inr rfl))

/-- C2 amended: every status type of a posted or previewed update equals
the aggregate computed from all ticket records: complete exactly when every
ticket status is in the done bucket, at_risk exactly when not all are done
and at least one is in the blocked bucket, on_track otherwise; the mapping
table is not consulted. -/
theorem C2_aggregate_status_amended (env : SyncEnv) (dry_run : Bool)
    (goal_gid goal_name st : String) (infos : List TicketInfo)
    (h : st ∈ posted_status_types
        (create_goal_status_update env dry_run goal_gid goal_name infos)) :
    st = aggregate_status_type infos ∧
    (st = "complete" ↔
      ∀ t ∈ infos, done_statuses.contains (str_to_lower t.jira_status) = true) ∧
    (st = "at_risk" ↔
      (¬ ∀ t ∈ infos, done_statuses.contains (str_to_lower t.jira_status) = true) ∧
      ∃ t ∈ infos, blocked_statuses.contains (str_to_lower t.jira_status) = true) ∧
    (st = "on_track" ↔
      (¬ ∀ t ∈ infos, done_statuses.contains (str_to_lower t.jira_status) = true) ∧
      ¬ ∃ t ∈ infos, blocked_statuses.contains (str_to_lower t.jira_status) = true) := by
  have hst : st = aggregate_status_type infos := by
    rcases create_goal_status_update_cases env dry_run goal_gid goal_name infos with
      hc | hc | hc | hc <;> rw [hc] at h <;>
      simp [posted_status_types, action_status_type] at h <;> exact h
  subst hst
  have hchar := aggregate_status_type_characterization infos
  exact ⟨rfl, hchar.1, hchar.2.1, hchar.2.2⟩

/-- C2 amended instance: the at_risk status posted for the green then
Blocked records satisfies the aggregate characterization. -/
theorem C2_aggregate_status_amended_witness :
    ("at_risk" ∈ posted_status_types
        (create_goal_status_update cex_first_env false "goal-2" "Goal2" cex_mixed_records)) ∧
    ("at_risk" = aggregate_status_type cex_mixed_records ∧
     ("at_risk" = "complete" ↔
       ∀ t ∈ cex_mixed_records, done_statuses.contains (str_to_lower t.jira_status) = true) ∧
     ("at_risk" = "at_risk" ↔
       (¬ ∀ t ∈ cex_mixed_records, done_statuses.contains (str_to_lower t.jira_status) = true) ∧
       ∃ t ∈ cex_mixed_records, blocked_statuses.contains (str_to_lower t.jira_status) = true) ∧
     ("at_risk" = "on_track" ↔
       (¬ ∀ t ∈ cex_mixed_records, done_statuses.contains (str_to_lower t.jira_status) = true) ∧
       ¬ ∃ t ∈ cex_mixed_records, blocked_statuses.contains (str_to_lower t.jira_status) = true)) :=
  ⟨by decide,
    C2_aggregate_status_amended cex_first_env false "goal-2" "Goal2" "at_risk"
      cex_mixed_records (by decide)⟩

/-- C5: for any ticket with more than five new comments, the renderer input
pipeline (global newest first sort, then per ticket filter, then the cap of
five) shows exactly five comments, ordered newest first, and every comment
of that ticket left out is no newer than any shown one: the five shown are
the five most recent. -/
theorem C5_top_five_cap (all : List NewComment) (k : String)
    (h : 5 < (ticket_comments all k).length) :
    (shown_comments (sort_comments_desc all) k).length = 5 ∧
    List.Pairwise new_comment_ge (shown_comments (sort_comments_desc all) k) ∧
    (∀ y ∈ all, y.jira_ticket = k → y ∉ shown_comments (sort_comments_desc all) k →
      ∀ x ∈ shown_comments (sort_comments_desc all) k, y.created ≤ x.created) := by
  have hperm : List.Perm (sort_comments_desc all) all :=
    List.perm_insertionSort new_comment_ge all
  have hsorted : List.Pairwise new_comment_ge (sort_comments_desc all) :=
    List.sorted_insertionSort new_comment_ge all
  have hflen : (ticket_comments (sort_comments_desc all) k).length =
      (ticket_comments all k).length := by
    show (List.filter (fun c => c.jira_ticket == k) (sort_comments_desc all)).length =
      (List.filter (fun c => c.jira_ticket == k) all).length
    exact (hperm.filter (fun c => c.jira_ticket == k)).length_eq
  have hPf : List.Pairwise new_comment_ge (ticket_comments (sort_comments_desc all) k) :=
    List.Pairwise.sublist (List.filter_sublist (sort_comments_desc all)) hsorted
  refine ⟨?_, ?_, ?_⟩
  · show ((ticket_comments (sort_comments_desc all) k).take 5).length = 5
    rw [List.length_take, hflen]
    exact Nat.min_eq_left (Nat.le_of_lt h)
  · exact List.Pairwise.sublist
      (List.take_sublist 5 (ticket_comments (sort_comments_desc all) k)) hPf
  · intro y hy hk hns x hx
    have hyS : y ∈ sort_comments_desc all := hperm.mem_iff.mpr hy
    have hyF : y ∈ ticket_comments (sort_comments_desc all) k := by
      show y ∈ List.filter (fun c => c.jira_ticket == k) (sort_comments_desc all)
      exact List.mem_filter.mpr ⟨hyS, by simp [hk]⟩
    have hPtd : List.Pairwise new_comment_ge
        ((ticket_comments (sort_comments_desc all) k).take 5 ++
          (ticket_comments (sort_comments_desc all) k).drop 5) := by
      rw [List.take_append_drop]
      exact hPf
    have hsplit := List.pairwise_append.mp hPtd
    have hyd : y ∈ (ticket_comments (sort_comments_desc all) k).drop 5 := by
      have h2 : y ∈ (ticket_comments (sort_comments_desc all) k).take 5 ++
          (ticket_comments (sort_comments_desc all) k).drop 5 := by
        rw [List.take_append_drop]
        exact hyF
      rcases List.mem_append.mp h2 with h3 | h3
      · exact absurd h3 hns
      · exact h3
    exact hsplit.2.2 x hx y hyd

/-- C5 instance: eight comments, seven of them on ticket K, supply more
than five for K and the cap and ordering conclusions hold. -/
theorem C5_top_five_cap_witness :
    5 < (ticket_comments w5_comments "K").length ∧
    ((shown_comments (sort_comments_desc w5_comments) "K").length = 5 ∧
     List.Pairwise new_comment_ge (shown_comments (sort_comments_desc w5_comments) "K") ∧
     (∀ y ∈ w5_comments, y.jira_ticket = "K" →
        y ∉ shown_comments (sort_comments_desc w5_comments) "K" →
        ∀ x ∈ shown_comments (sort_comments_desc w5_comments) "K", y.created ≤ x.created)) :=
  ⟨by decide, C5_top_five_cap w5_comments "K" (by decide)⟩

/-- Helper: mapping a function over an Except value does not change whether
it is an error. -/
theorem is_error_map {α β : Type} (f : α → β) (r : Except String α) :
    is_error (Except.map f r) = is_error r := by
  cases r <;> rfl

/-- Helper: if some task of the list resolves to a ticket whose status
lookup is falsy, the whole collection raises. -/
theorem collect_jira_tickets_info_error (env : SyncEnv) (goal_name : String)
    (tasks : List TaskRec) (task : TaskRec)
    (hmem : task ∈ tasks)
    (hgid : truthy_str task.gid = true)
    (hex : env.task_exists (task.gid.getD "") = true)
    (htk : truthy_str (get_jira_ticket_from_attachments
        (env.attachments (task.gid.getD ""))) = true)
    (hstat : truthy_str (env.get_ticket_status
        ((get_jira_ticket_from_attachments (env.attachments (task.gid.getD ""))).getD "")) =
      false) :
    is_error (collect_jira_tickets_info env goal_name tasks) = true := by
  induction tasks with
  | nil => cases hmem
  | cons hd tl ih =>
    rcases List.mem_cons.mp hmem with heq | htl
    · subst heq
      simp only [collect_jira_tickets_info, task_details_jira_ticket, hgid, hex, htk, hstat,
        Bool.not_true, Bool.not_false, if_true, if_false, ite_true, ite_false]
      rfl
    · have ihh := ih htl
      simp only [collect_jira_tickets_info]
      split
      · exact ihh
      · split
        · exact ihh
        · split
          · exact ihh
          · split
            · rw [is_error_map]
              exact ihh
            · rfl

/-- C7: when a linked task resolves to a Jira ticket whose status cannot be
retrieved (falsy lookup result), processing the goal raises, so the run
aborts and no status update is posted for that goal. -/
theorem C7_ticket_status_unavailable_fatal (env : SyncEnv) (dry_run : Bool)
    (goal_gid goal_name : String) (task : TaskRec)
    (hmem : task ∈ env.goal_tasks)
    (hgid : truthy_str task.gid = true)
    (hex : env.task_exists (task.gid.getD "") = true)
    (htk : truthy_str (get_jira_ticket_from_attachments
        (env.attachments (task.gid.getD ""))) = true)
    (hstat : truthy_str (env.get_ticket_status
        ((get_jira_ticket_from_attachments (env.attachments (task.gid.getD ""))).getD "")) =
      false) :
    is_error (process_single_goal env dry_run goal_gid goal_name) = true := by
  have hne : env.goal_tasks.isEmpty = false := by
    cases htasks : env.goal_tasks with
    | nil => rw [htasks] at hmem; cases hmem
    | cons a b => rfl
  have hcol := collect_jira_tickets_info_error env goal_name env.goal_tasks task hmem hgid
    hex htk hstat
  unfold process_single_goal
  rw [hne]
  cases hres : collect_jira_tickets_info env goal_name env.goal_tasks with
  | error e => rfl
  | ok infos =>
    rw [hres] at hcol
    exact Bool.noConfusion hcol

/-- C7 instance: one task with ticket AB-1 whose status lookup returns
none makes the goal processing raise. -/
theorem C7_ticket_status_unavailable_fatal_witness :
    ({ gid := some "t1", name := "Task" } : TaskRec) ∈ w7_env.goal_tasks ∧
    truthy_str ({ gid := some "t1", name := "Task" } : TaskRec).gid = true ∧
    w7_env.task_exists (({ gid := some "t1", name := "Task" } : TaskRec).gid.getD "") = true ∧
    truthy_str (get_jira_ticket_from_attachments
      (w7_env.attachments (({ gid := some "t1", name := "Task" } : TaskRec).gid.getD ""))) = true ∧
    truthy_str (w7_env.get_ticket_status
      ((get_jira_ticket_from_attachments
        (w7_env.attachments (({ gid := some "t1", name := "Task" } : TaskRec).gid.getD ""))).getD "")) =
      false ∧
    is_error (process_single_goal w7_env false "g7" "G7") = true :=
  ⟨by decide, by decide, by decide, by decide, by decide,
    C7_ticket_status_unavailable_fatal w7_env false "g7" "G7"
      { gid := some "t1", name := "Task" }
      (by decide) (by decide) (by decide) (by decide) (by decide)⟩

/-- Helper: with a succeeding write, the dry and live runs of the update
creation agree up to replacing the live write with a preview. -/
theorem create_dry_live_agree (env : SyncEnv) (goal_gid goal_name : String)
    (infos : List TicketInfo) (hw : env.create_status_ok = true) :
    (create_goal_status_update env true goal_gid goal_name infos = Except.ok (true, []) ∧
     create_goal_status_update env false goal_gid goal_name infos = Except.ok (true, [])) ∨
    (∃ a b, create_goal_status_update env true goal_gid goal_name infos =
        Except.ok (true, [a]) ∧
      create_goal_status_update env false goal_gid goal_name infos = Except.ok (true, [b])) := by
  unfold create_goal_status_update
  dsimp only
  split
  · exact Or.inl ⟨rfl, rfl⟩
  · refine Or.inr ⟨SyncAction.preview_status "Status Sync"
      (build_status_text_html env.fmt_time
        (sort_comments_desc (collect_new_comments env (compute_since_date env) infos)) infos)
      (aggregate_status_type infos),
      SyncAction.create_status goal_gid "Status Sync"
      (build_status_text_html env.fmt_time
        (sort_comments_desc (collect_new_comments env (compute_since_date env) infos)) infos)
      (aggregate_status_type infos), ?_, ?_⟩
    · simp
    · simp [hw]

/-- C9: with identical external data and a succeeding status creation
write, the per goal processed count of a dry run equals the count of a live
run; the two differ only in recording a preview instead of the write. -/
theorem C9_dry_run_same_count (env : SyncEnv) (goal_gid goal_name : String)
    (hw : env.create_status_ok = true) :
    Except.map Prod.fst (process_single_goal env true goal_gid goal_name) =
      Except.map Prod.fst (process_single_goal env false goal_gid goal_name) := by
  unfold process_single_goal
  split
  · rfl
  · cases hres : collect_jira_tickets_info env goal_name env.goal_tasks with
    | error e => rfl
    | ok infos =>
      dsimp only
      split
      · rfl
      · rcases create_dry_live_agree env goal_gid goal_name infos hw with
          ⟨h1, h2⟩ | ⟨a, b, h1, h2⟩ <;> rw [h1, h2] <;> rfl

/-- C9 instance: at an environment driving the full update path, the dry
and live processed counts agree. -/
theorem C9_dry_run_same_count_witness :
    w9_env.create_status_ok = true ∧
    Except.map Prod.fst (process_single_goal w9_env true "g9" "G9") =
      Except.map Prod.fst (process_single_goal w9_env false "g9" "G9") :=
  ⟨rfl, C9_dry_run_same_count w9_env "g9" "G9" rfl⟩

end AsanaJiraSync
